import Mathlib

/-!
Shallow embedding of the score-db request handlers (noaa-psd/score-db).

Conventions used throughout this development:
* Python `datetime` values are modelled as integers (`Int`): the code only ever
  compares, copies and stores them, so any linearly ordered carrier is faithful;
  `datetime.strptime` parsing is abstracted to already-parsed integral
  timestamps where a claim does not depend on the parse itself.
* Python floats that the code manipulates are latitude/longitude bounds that
  are integral in every region definition shipped with the repository; they are
  modelled as `Int` and rendered with `floatStr`, which matches CPython
  `repr`/f-string output for integral floats (for example `-180.0`).
* Python exceptions are modelled by the `PyErr` inductive and fallible code
  returns `Except PyErr α`.  A reference to an undefined variable (a
  `NameError` at runtime) is modelled by `PyErr.nameError`.
* SQL tables are lists of row structures; `query(...).filter(...)` is
  `List.filter`, `.limit(n)` is `List.take n`, and the PostgreSQL
  `INSERT ... ON CONFLICT DO UPDATE` statement is modelled by looking up the
  unique-constraint key and either appending or updating in place.
* pandas `DataFrame`s of query results are modelled as lists of records;
  `sort_values` is modelled by an insertion sort on the sort column (the
  observable contract - a permutation ordered by the column - is what
  `drop_duplicates(keep='last')` consumes) and `drop_duplicates(keep='last')`
  keeps the last occurrence of every duplicated key, preserving row order.
-/

set_option linter.unusedVariables false

/-- Python exception kinds raised by the embedded code. -/
inductive PyErr where
  | valueError
  | typeError
  | keyError
  | attributeError
  | nameError
  | exptMetricsError
deriving DecidableEq, Repr

/-- Embedding of the `DbActionResponse` dataclass (db_action_response.py):
the uniform response envelope `{request, success, message, details, errors}`.
`ρ` is the type of the echoed request and `δ` the handler-specific shape of
the `details` dict (`none` models Python `None`). -/
structure DbActionResponse (ρ δ : Type) where
  request : ρ
  success : Bool
  message : Option String
  details : Option δ
  errors : Option String
deriving Repr

/-- Rendering of an integral Python float, as produced by `f-string`
interpolation of `float(x)` for integral `x` (for example `"-180.0"`). -/
def floatStr (n : Int) : String := toString n ++ ".0"

/-- Constant `MIN_LONG` from regions.py. -/
def MIN_LONG : Int := -180

/-- Constant `MAX_LONG` from regions.py. -/
def MAX_LONG : Int := 180

/-- Embedding of the `RegionData` namedtuple from regions.py. -/
structure RegionData where
  name : String
  min_lat : Int
  max_lat : Int
  grid : String
  hash_val : String
deriving DecidableEq, Repr

/-- Raw region dict of a region request body: `{name, min_lat, max_lat}`. -/
structure RegionInput where
  name : String
  min_lat : Int
  max_lat : Int
deriving DecidableEq, Repr

/-- Embedding of the grid-string construction in `Region.__post_init__`
(regions.py lines 82-88).  The successive `let g := ...` bindings mirror the
successive Python statements: the source first assigns `'POLYGON('` to
`self.grid` and then ASSIGNS (`=`, not `+=`) the first vertex string, so the
`POLYGON(` prefix is overwritten and lost; all later statements append. -/
def regionGrid (min_lat max_lat : Int) : String :=
  let g := "POLYGON("
  let g := "(" ++ floatStr MIN_LONG ++ " " ++ floatStr max_lat ++ "),"
  let g := g ++ "(" ++ floatStr MAX_LONG ++ " " ++ floatStr max_lat ++ "),"
  let g := g ++ "(" ++ floatStr MAX_LONG ++ " " ++ floatStr min_lat ++ "),"
  let g := g ++ "(" ++ floatStr MIN_LONG ++ " " ++ floatStr min_lat ++ "),"
  let g := g ++ "(" ++ floatStr MIN_LONG ++ " " ++ floatStr max_lat ++ ")"
  let g := g ++ ")"
  g

/-- Embedding of `Region.__post_init__` validation plus derived fields
(regions.py lines 58-94): rejects `min_lat > max_lat` (both redundant checks
of the source collapse to the same test) and out-of-range latitudes with a
`ValueError`, then derives the grid string and the hash
`hash_val = name + grid`. -/
def mkRegion (name : String) (min_lat max_lat : Int) : Except PyErr RegionData :=
  if min_lat > max_lat then .error .valueError
  else if max_lat < min_lat then .error .valueError
  else if min_lat.natAbs > 90 || max_lat.natAbs > 90 then .error .valueError
  else
    let grid := regionGrid min_lat max_lat
    .ok { name := name, min_lat := min_lat, max_lat := max_lat,
          grid := grid, hash_val := name ++ grid }

/-- Validation of each entry of a region list, mirroring the loop body of
`validate_list_of_regions` (regions.py lines 111-116) before set insertion. -/
def validateRegionEntries : List RegionInput → Except PyErr (List RegionData)
  | [] => .ok []
  | r :: rs => do
      let rd ← mkRegion r.name r.min_lat r.max_lat
      let rest ← validateRegionEntries rs
      .ok (rd :: rest)

/-- Collapse of a list through a Python `set`: every duplicated element
occurs once in the result (the set iteration order is arbitrary in Python;
this model keeps the last occurrence, which is immaterial to every property
proved below). -/
def setCollapse {α : Type} [DecidableEq α] : List α → List α
  | [] => []
  | a :: as => if a ∈ as then setCollapse as else a :: setCollapse as

/-- Embedding of `validate_list_of_regions` (regions.py lines 107-121): each
entry is validated into a `RegionData`; any failure is re-raised as a
`TypeError`; the entries are collected in a Python `set`, which collapses
duplicates. -/
def validateListOfRegions (l : List RegionInput) : Except PyErr (List RegionData) :=
  match validateRegionEntries l with
  | .error _ => .error .typeError
  | .ok rds => .ok (setCollapse rds)

/-- Embedding of `validate_list_of_strings` (regions.py lines 123-133):
duplicates collapse through a Python set. -/
def validateListOfStringsRegions (l : List String) : List String :=
  setCollapse l

/-- Row of the `regions` table (score_table_models.py `Region`): unique
constraint `unique_region` on `(name, bounds)`. -/
structure RegionRow where
  id : Nat
  name : String
  bounds : String
  created_at : Int
  updated_at : Option Int
deriving DecidableEq, Repr

/-- Derived column `unique_region = name || bounds` selected by every region
query (regions.py `rg.name.concat(rg.bounds).label('unique_region')`). -/
def uniqueRegion (r : RegionRow) : String := r.name ++ r.bounds

/-- Embedding of `RegionRequest.get_region_set` (regions.py lines 383-415):
rows whose `unique_region` concatenation is in the supplied hash list. -/
def regionGetSet (db : List RegionRow) (hashVals : List String) : List RegionRow :=
  db.filter (fun r => hashVals.contains (uniqueRegion r))

/-- Embedding of `RegionRequest.get_regions_by_name` (regions.py
lines 333-357): rows whose `name` is in the requested name list. -/
def regionGetByName (db : List RegionRow) (names : List String) : List RegionRow :=
  db.filter (fun r => names.contains r.name)

/-- Details dict of a region PUT response (regions.py lines 318-327); the two
record sets are serialized DataFrames in the source, modelled as row lists. -/
structure RegionPutDetails where
  inserted_records : List RegionRow
  matched_records : List RegionRow
deriving Repr

/-- Details dict of a region GET response (regions.py lines 257-265). -/
structure RegionGetDetails where
  matched_records : List RegionRow
deriving Repr

/-- Embedding of the `HTTP_PUT` branch of `RegionRequest.submit` (regions.py
lines 268-329) on an already validated region list: query the rows matching
the request hashes, insert (with fresh sequential ids and `created_at := tNow`,
`updated_at := None`) exactly those request regions whose hash is not among
the existing `unique_region` values, then report the re-queried inserted set
and full matched set. -/
def regionSubmitPut (db : List RegionRow) (nextId : Nat) (tNow : Int)
    (regions : List RegionData) :
    List RegionRow × DbActionResponse (List RegionInput) RegionPutDetails :=
  let hashVals := regions.map (·.hash_val)
  let existing := regionGetSet db hashVals
  let toInsert := regions.filter
    (fun rd => !((existing.map uniqueRegion).contains rd.hash_val))
  let newRows := (List.range toInsert.length).zip toInsert |>.map
    (fun p => RegionRow.mk (nextId + p.1) p.2.name p.2.grid tNow none)
  let db' := db ++ newRows
  let recordsHashVals := toInsert.map (·.hash_val)
  let insertedRecords := regionGetSet db' recordsHashVals
  let matchedRecords := regionGetSet db' hashVals
  (db',
    { request := regions.map (fun rd => RegionInput.mk rd.name rd.min_lat rd.max_lat)
      success := true
      message := some ("Inserted " ++ toString insertedRecords.length ++ " new region/s.")
      details := some { inserted_records := insertedRecords,
                        matched_records := matchedRecords }
      errors := none })

/-- Region PUT request path: `validate_body` on the body region list
(regions.py lines 163-165) followed by `submit` for method PUT.  A validation
failure is raised out of `RegionRequest.__post_init__` before any database
access, leaving the table unchanged. -/
def regionRequestPut (db : List RegionRow) (nextId : Nat) (tNow : Int)
    (bodyRegions : List RegionInput) :
    List RegionRow × Except PyErr (DbActionResponse (List RegionInput) RegionPutDetails) :=
  match validateListOfRegions bodyRegions with
  | .error e => (db, .error e)
  | .ok regions =>
      let (db', resp) := regionSubmitPut db nextId tNow regions
      (db', .ok resp)

/-- Region GET request path with `filter_type = by_name` (regions.py
lines 157-158 and 245-246): names are deduplicated through a set, matching
rows are returned, and the response reports the match count. -/
def regionRequestGetByName (db : List RegionRow) (names : List String) :
    DbActionResponse (List String) RegionGetDetails :=
  let regionNames := validateListOfStringsRegions names
  let matched := regionGetByName db regionNames
  { request := names
    success := true
    message := some ("Request returned " ++ toString matched.length ++ " record/s")
    details := some { matched_records := matched }
    errors := none }

/-- Python value of the `params.record_limit` field, as discriminated by the
source normalization `type(x) == int` (note Python `bool` is a distinct exact
type from `int`, and `float` values also fail the exact-type test). -/
inductive PyVal where
  | int (n : Int)
  | bool (b : Bool)
  | str (s : String)
  | float (q : Int)
  | pynone
deriving DecidableEq, Repr

/-- Embedding of the record-limit normalization in
`ExperimentRequest.__post_init__` (experiments.py lines 494-495):
`if not type(self.record_limit) == int or self.record_limit <= 0: None`. -/
def expNormalizeRecordLimit : PyVal → Option Int
  | .int n => if n ≤ 0 then none else some n
  | _ => none

/-- Embedding of the identical record-limit normalization in
`MetricTypeRequest.__post_init__` (metric_types.py lines 300-301). -/
def mtNormalizeRecordLimit : PyVal → Option Int
  | .int n => if n ≤ 0 then none else some n
  | _ => none

/-- Values a record_limit normalizes away: everything that is not of exact
`int` type, and non-positive ints. -/
def badRecordLimit : PyVal → Prop
  | .int n => n ≤ 0
  | _ => True

instance : DecidablePred badRecordLimit := fun v => by
  cases v <;> simp only [badRecordLimit] <;> infer_instance

/-- SQL `LIKE` pattern matching over characters: `%` matches any sequence,
`_` any single character (semantics of the `column.like(...)` filters). -/
def likeMatchChars : List Char → List Char → Bool
  | [], [] => true
  | [], _ :: _ => false
  | '%' :: ps, [] => likeMatchChars ps []
  | '%' :: ps, c :: cs =>
      likeMatchChars ps (c :: cs) || likeMatchChars ('%' :: ps) cs
  | '_' :: _, [] => false
  | '_' :: ps, _ :: cs => likeMatchChars ps cs
  | p :: _, [] => false
  | p :: ps, c :: cs => p == c && likeMatchChars ps cs
termination_by p s => (p.length, s.length)

/-- SQL `LIKE` on strings. -/
def likeMatch (pat s : String) : Bool := likeMatchChars pat.data s.data

/-- Filter dict built by the filter-builder helpers: SQLAlchemy column
expressions are modelled as boolean row predicates keyed by the dict key the
source stores them under. -/
abbrev FilterDict (α : Type) := List (String × (α → Bool))

/-- Python dict assignment `d[k] = v`: replaces the binding if the key is
present, otherwise appends it. -/
def dictSet {β : Type} (d : List (String × β)) (k : String) (v : β) :
    List (String × β) :=
  if d.any (fun p => p.1 == k) then
    d.map (fun p => if p.1 == k then (k, v) else p)
  else d ++ [(k, v)]

/-- Python dict lookup `d.get(k)`. -/
def dictGet {β : Type} (d : List (String × β)) (k : String) : Option β :=
  (d.find? (fun p => p.1 == k)).map (·.2)

/-- Time-range filter spec under one datetime key: the (already parsed)
`exact`, `from` and `to` entries of the bounds dict. -/
structure TimeFilterSpec where
  exactDt : Option Int
  fromDt : Option Int
  toDt : Option Int
deriving DecidableEq, Repr

/-- Embedding of expt_metrics.py `get_time_filter` (lines 202-241),
instantiated with the column accessor that `getattr(cls, key)` denotes:
no entry is a no-op; `exact` wins; with both bounds, `to < from` raises a
`ValueError`, otherwise a closed-interval predicate is stored; a single bound
gives the corresponding one-sided predicate. -/
def emGetTimeFilter {α : Type} (entry? : Option TimeFilterSpec) (col : α → Int)
    (key : String) (cf : FilterDict α) : Except PyErr (FilterDict α) :=
  match entry? with
  | none => .ok cf
  | some value =>
      match value.exactDt with
      | some t => .ok (dictSet cf key (fun row => col row == t))
      | none =>
          match value.fromDt, value.toDt with
          | some f, some t =>
              if t < f then .error .valueError
              else .ok (dictSet cf key
                (fun row => decide (f ≤ col row) && decide (col row ≤ t)))
          | some f, none => .ok (dictSet cf key (fun row => decide (f ≤ col row)))
          | none, some t => .ok (dictSet cf key (fun row => decide (col row ≤ t)))
          | none, none => .ok cf

/-- Embedding of experiments.py `get_time_filter` (lines 220-288).  The
parameter of the source function is named `filter`, but the body reads the
name `filters`, which is defined neither locally nor at module level: the
non-dict branch evaluates `type(filters)` inside the error-message f-string
and the dict branch evaluates `filters.get(key)`, so EVERY call raises a
`NameError` before any filter is constructed. -/
def expGetTimeFilter {α : Type} (entry? : Option TimeFilterSpec) (col : α → Int)
    (key : String) (cf : FilterDict α) : Except PyErr (FilterDict α) :=
  match entry? with
  | none => .error .nameError
  | some _ => .error .nameError

/-- String filter spec of experiments.py / metric_types.py
`get_string_filter`: optional `like` pattern and optional single `exact`
value; `like` wins when both are present. -/
structure ExpStrFilter where
  like : Option String
  exact : Option String
deriving DecidableEq, Repr

/-- Embedding of experiments.py `get_string_filter` (lines 291-314) (shared
verbatim by metric_types.py lines 156-179), given the entry `filters.get(key)`
and the column accessor: `like` produces a LIKE predicate, otherwise `exact`
produces an equality predicate, otherwise nothing is added. -/
def expGetStringFilterEntry {α : Type} (entry? : Option ExpStrFilter)
    (col : α → String) (key : String) (cf : FilterDict α) : FilterDict α :=
  match entry? with
  | none => cf
  | some flt =>
      match flt.like with
      | some pat => dictSet cf key (fun row => likeMatch pat (col row))
      | none =>
          match flt.exact with
          | none => cf
          | some v => dictSet cf key (fun row => col row == v)

/-- Filters dict of an experiment GET request (experiments.py
`construct_filters`, lines 317-388): one optional entry per filterable
column. -/
structure ExpFilters where
  name : Option ExpStrFilter
  cycle_start : Option TimeFilterSpec
  cycle_stop : Option TimeFilterSpec
  wallclock_start : Option TimeFilterSpec
  wallclock_end : Option TimeFilterSpec
  owner_id : Option ExpStrFilter
  group_id : Option ExpStrFilter
deriving DecidableEq, Repr

/-- Row of the `experiments` table (score_table_models.py `Experiment`):
unique constraint `unique_experiment` on `(name, wallclock_start)`. -/
structure ExpRow where
  id : Nat
  name : String
  cycle_start : Int
  cycle_stop : Int
  owner_id : String
  group_id : String
  experiment_type : String
  platform : String
  wallclock_start : Int
  wallclock_end : Option Int
  description : String
  created_at : Int
  updated_at : Option Int
deriving DecidableEq, Repr

/-- Embedding of experiments.py `construct_filters` (lines 317-388): a
`None` filters argument makes the first `get_string_filter` raise a
`TypeError`; otherwise the `name` string filter is built and the very next
step, `get_time_filter(filters, exp, 'cycle_start', ...)`, raises the
`NameError` described at `expGetTimeFilter`.  No experiment filter dict is
ever constructed successfully. -/
def expConstructFilters (filters? : Option ExpFilters) :
    Except PyErr (FilterDict ExpRow) :=
  match filters? with
  | none => .error .typeError
  | some f => do
      let cf := expGetStringFilterEntry f.name ExpRow.name "name" []
      let cf ← expGetTimeFilter f.cycle_start ExpRow.cycle_start "cycle_start" cf
      let cf ← expGetTimeFilter f.cycle_stop ExpRow.cycle_stop "cycle_stop" cf
      let cf ← expGetTimeFilter f.wallclock_start ExpRow.wallclock_start
        "wallclock_start" cf
      let cf ← expGetTimeFilter f.wallclock_end (fun r => r.wallclock_end.getD 0)
        "wallclock_end" cf
      let cf := expGetStringFilterEntry f.owner_id ExpRow.owner_id "owner_id" cf
      let cf := expGetStringFilterEntry f.group_id ExpRow.group_id "group_id" cf
      .ok cf

/-- String constant `INSERT` (experiments.py / metric_types.py). -/
def INSERT : String := "INSERT"

/-- String constant `UPDATE` (experiments.py / metric_types.py). -/
def UPDATE : String := "UPDATE"

/-- Allow-list `VALID_PLATFORMS` (experiments.py lines 35-42). -/
def VALID_PLATFORMS : List String :=
  ["hera", "orion", "pw_azv1", "pw_azv2", "pw_awv1", "pw_awv2"]

/-- Embedding of the `ExperimentData` namedtuple (experiments.py). -/
structure ExperimentData where
  name : String
  cycle_start : Int
  cycle_stop : Int
  owner_id : String
  group_id : String
  experiment_type : String
  platform : String
  wallclock_start : Int
  wallclock_end : Int
  description : String
deriving DecidableEq, Repr

/-- Embedding of `Experiment.__post_init__` (experiments.py lines 104-127):
`cycle_start > cycle_stop` raises a `ValueError` first, then an unlisted
platform raises a `ValueError`, and otherwise the `ExperimentData` tuple is
built. -/
def mkExperiment (name : String) (cycle_start cycle_stop : Int)
    (owner_id group_id experiment_type platform : String)
    (wallclock_start wallclock_end : Int) (description : String) :
    Except PyErr ExperimentData :=
  if cycle_start > cycle_stop then .error .valueError
  else if !(VALID_PLATFORMS.contains platform) then .error .valueError
  else .ok { name := name, cycle_start := cycle_start, cycle_stop := cycle_stop,
             owner_id := owner_id, group_id := group_id,
             experiment_type := experiment_type, platform := platform,
             wallclock_start := wallclock_start, wallclock_end := wallclock_end,
             description := description }

/-- Body of an experiment PUT request, with the four date strings already
parsed to integral timestamps (missing or literal `'None'` dates default to
the epoch in the source, hence plain `Int` fields); `description = none`
models a body whose description string is not valid JSON. -/
structure ExpBody where
  name : String
  cycle_start : Int
  cycle_stop : Int
  owner_id : String
  group_id : String
  experiment_type : String
  platform : String
  wallclock_start : Int
  wallclock_end : Int
  description : Option String
deriving DecidableEq, Repr

/-- Embedding of `get_experiment_from_body` (experiments.py lines 139-187):
a non-dict body raises a `TypeError`, an unparsable description raises a
`ValueError`, and otherwise the `Experiment` dataclass is constructed (whose
`__post_init__` performs the cycle-window and platform validation). -/
def getExperimentFromBody (body? : Option ExpBody) : Except PyErr ExperimentData :=
  match body? with
  | none => .error .typeError
  | some b =>
      match b.description with
      | none => .error .valueError
      | some d =>
          mkExperiment b.name b.cycle_start b.cycle_stop b.owner_id b.group_id
            b.experiment_type b.platform b.wallclock_start b.wallclock_end d

/-- Generic validation of a request method against `VALID_METHODS`
(`validate_method` in regions.py / experiments.py / expt_metrics.py /
metric_types.py): anything outside the list - including a missing method -
raises a `ValueError`. -/
def validateMethod (valid : List String) (m : Option String) : Except PyErr String :=
  match m with
  | some s => if valid.contains s then .ok s else .error .valueError
  | none => .error .valueError

/-- SQL-comparable column value (every selected column is either numeric or
textual). -/
inductive ColVal where
  | i (n : Int)
  | s (v : String)
deriving DecidableEq, Repr

/-- Ordering on column values: numeric and lexicographic string order (a
cross-type comparison never occurs because a column has a single type). -/
def colValLe : ColVal → ColVal → Bool
  | .i a, .i b => decide (a ≤ b)
  | .s a, .s b => !(decide (b < a))
  | .i _, .s _ => true
  | .s _, .i _ => false

/-- Raw `{name, order_by}` ordering item of `params.ordering` (values as
delivered by `dict.get`, hence optional). -/
structure RawOrderItem where
  name : Option String
  order_by : Option String
deriving DecidableEq, Repr

/-- Validated ordering item. -/
structure OrderItem where
  name : String
  ascending : Bool
deriving DecidableEq, Repr

/-- Embedding of `validate_column_name` (experiments.py lines 391-402): a
non-string raises a `TypeError`; an attribute `getattr` cannot resolve raises
a `ValueError`. -/
def validateColumnName (cols : List String) (v : Option String) :
    Except PyErr String :=
  match v with
  | none => .error .typeError
  | some s => if cols.contains s then .ok s else .error .valueError

/-- Embedding of `validate_order_dir` (experiments.py lines 405-413): a
non-string and a direction outside `[asc, desc]` both raise a `TypeError`. -/
def validateOrderDir (v : Option String) : Except PyErr String :=
  match v with
  | none => .error .typeError
  | some s => if s = "asc" || s = "desc" then .ok s else .error .typeError

/-- Validation loop of `build_column_ordering` over the ordering items. -/
def buildOrderingItems (cols : List String) :
    List RawOrderItem → Except PyErr (List OrderItem)
  | [] => .ok []
  | it :: rest => do
      let colName ← validateColumnName cols it.name
      let dir ← validateOrderDir it.order_by
      let tail ← buildOrderingItems cols rest
      .ok ({ name := colName, ascending := dir = "asc" } :: tail)

/-- Embedding of `build_column_ordering` (experiments.py lines 416-466, same
shape in metric_types.py and expt_metrics.py): `None` stays `None`, otherwise
every item is validated. -/
def buildColumnOrdering (cols : List String) :
    Option (List RawOrderItem) → Except PyErr (Option (List OrderItem))
  | none => .ok none
  | some items => do
      let validated ← buildOrderingItems cols items
      .ok (some validated)

/-- Lexicographic row comparison along a sequence of `ORDER BY` items. -/
def ordLe {α : Type} (val : α → String → ColVal) :
    List OrderItem → α → α → Bool
  | [], _, _ => true
  | it :: rest, a, b =>
      let va := val a it.name
      let vb := val b it.name
      if va = vb then ordLe val rest a b
      else if it.ascending then colValLe va vb else colValLe vb va

/-- Application of the constructed ordering to the result rows: a chain of
`ORDER BY` clauses sorts the result lexicographically; with no (or an empty)
ordering the rows pass through untouched, matching the
`column_ordering is not None and len > 0` guard. -/
def applyOrdering {α : Type} (val : α → String → ColVal)
    (ord : Option (List OrderItem)) (rows : List α) : List α :=
  match ord with
  | none => rows
  | some [] => rows
  | some items => List.insertionSort (fun a b => ordLe val items a b = true) rows

/-- Details dict of a GET query response: `{record_count, records?}` where
`records` is present only when the count is positive. -/
structure QueryDetails (α : Type) where
  record_count : Nat
  records : Option (List α)
deriving Repr

/-- Details dict of an upsert PUT response: `{action, data, id}`
(experiments.py lines 593-597). -/
structure ExpPutDetails where
  action : String
  data : List ExpRow
  id : Nat
deriving Repr

/-- Embedding of `ExperimentRequest.put_experiment` (experiments.py
lines 517-608): `INSERT INTO experiments ... ON CONFLICT ON CONSTRAINT
unique_experiment DO UPDATE SET wallclock_end = now, updated_at = now`.
The fresh row carries `updated_at = None`; the conflict branch overwrites
`wallclock_end` and `updated_at` of the existing `(name, wallclock_start)`
row with the current time.  The reported action is `UPDATE` exactly when the
returned row has a non-null `updated_at`. -/
def putExperiment {ρ : Type} (req : ρ) (db : List ExpRow) (nextId : Nat)
    (tNow : Int) (ed : ExperimentData) :
    List ExpRow × DbActionResponse ρ ExpPutDetails :=
  match db.find? (fun r =>
      r.name == ed.name && r.wallclock_start == ed.wallclock_start) with
  | none =>
      let row : ExpRow :=
        { id := nextId, name := ed.name, cycle_start := ed.cycle_start,
          cycle_stop := ed.cycle_stop, owner_id := ed.owner_id,
          group_id := ed.group_id, experiment_type := ed.experiment_type,
          platform := ed.platform, wallclock_start := ed.wallclock_start,
          wallclock_end := some ed.wallclock_end,
          description := ed.description, created_at := tNow,
          updated_at := none }
      let action := if row.updated_at.isSome then UPDATE else INSERT
      (db ++ [row],
        { request := req, success := true,
          message := some ("Attempt to " ++ action ++ " experiment record SUCCEEDED"),
          details := some { action := action, data := [row], id := row.id },
          errors := none })
  | some r =>
      let r' := { r with wallclock_end := some tNow, updated_at := some tNow }
      let db' := db.map (fun x => if x.id == r.id then r' else x)
      let action := if r'.updated_at.isSome then UPDATE else INSERT
      (db',
        { request := req, success := true,
          message := some ("Attempt to " ++ action ++ " experiment record SUCCEEDED"),
          details := some { action := action, data := [r'], id := r'.id },
          errors := none })

/-- Columns of the experiments table reachable by `getattr` in ordering
validation. -/
def expColumns : List String :=
  ["id", "name", "cycle_start", "cycle_stop", "owner_id", "group_id",
   "experiment_type", "platform", "wallclock_start", "wallclock_end",
   "description", "created_at", "updated_at"]

/-- Column valuation of an experiment row (nullable datetimes order as their
value, with null as 0, immaterial to the properties proved below). -/
def expColVal (r : ExpRow) : String → ColVal
  | "id" => .i r.id
  | "name" => .s r.name
  | "cycle_start" => .i r.cycle_start
  | "cycle_stop" => .i r.cycle_stop
  | "owner_id" => .s r.owner_id
  | "group_id" => .s r.group_id
  | "experiment_type" => .s r.experiment_type
  | "platform" => .s r.platform
  | "wallclock_start" => .i r.wallclock_start
  | "wallclock_end" => .i (r.wallclock_end.getD 0)
  | "description" => .s r.description
  | "created_at" => .i r.created_at
  | "updated_at" => .i (r.updated_at.getD 0)
  | _ => .i 0

/-- Embedding of `ExperimentRequest.get_experiments` (experiments.py
lines 611-681): apply the pre-constructed filters, the validated column
ordering, and - when a record limit is set - `LIMIT record_limit`; report the
row count and, when positive, the rows. -/
def expGetExperiments {ρ : Type} (req : ρ) (filters : Option (FilterDict ExpRow))
    (ordering : Option (List RawOrderItem)) (recordLimit : Option Int)
    (db : List ExpRow) : Except PyErr (DbActionResponse ρ (QueryDetails ExpRow)) := do
  let rows := match filters with
    | some cf => db.filter (fun r => cf.all (fun p => p.2 r))
    | none => db
  let ord ← buildColumnOrdering expColumns ordering
  let rows := applyOrdering expColVal ord rows
  let rows := match recordLimit with
    | some n => rows.take n.toNat
    | none => rows
  let recordCount := rows.length
  .ok { request := req, success := true,
        message := some "Request for experiment records SUCCEEDED",
        details := some { record_count := recordCount,
                          records := if recordCount > 0 then some rows else none },
        errors := none }

/-- Params dict of an experiment request. -/
structure ExpParams where
  filters : Option ExpFilters
  ordering : Option (List RawOrderItem)
  record_limit : PyVal
deriving Repr

/-- Experiment request dict: `{method, params?, body?}`. -/
structure ExpRequestModel where
  method : Option String
  params : Option ExpParams
  body : Option ExpBody
deriving Repr

/-- State established by `ExperimentRequest.__post_init__`. -/
structure ExpRequestState where
  method : String
  filters : Option (FilterDict ExpRow)
  ordering : Option (List RawOrderItem)
  record_limit : Option Int
  experiment_data : Option ExperimentData

/-- Embedding of `ExperimentRequest.__post_init__` (experiments.py
lines 482-505): validate the method; when params is a dict, construct the
filters (see `expConstructFilters`), read the ordering and normalize the
record limit; for a PUT, parse and validate the experiment body - all before
`submit` can run, so any failure here precedes every database access. -/
def expRequestInit (req : ExpRequestModel) : Except PyErr ExpRequestState := do
  let method ← validateMethod ["GET", "PUT"] req.method
  let parts ← match req.params with
    | some p => do
        let cf ← expConstructFilters p.filters
        pure (some cf, p.ordering, expNormalizeRecordLimit p.record_limit)
    | none => pure ((none : Option (FilterDict ExpRow)),
        (none : Option (List RawOrderItem)), (none : Option Int))
  let exptData? ← if method = "PUT" then do
      let ed ← getExperimentFromBody req.body
      pure (some ed)
    else pure (none : Option ExperimentData)
  .ok { method := method, filters := parts.1, ordering := parts.2.1,
        record_limit := parts.2.2, experiment_data := exptData? }

/-- Whole PUT-experiment request path: request construction
(`__post_init__`, including all input validation) followed by
`submit = put_experiment`.  A construction failure leaves the table
untouched. -/
def experimentPutFlow (req : ExpRequestModel) (db : List ExpRow) (nextId : Nat)
    (tNow : Int) :
    List ExpRow × Except PyErr (DbActionResponse ExpRequestModel ExpPutDetails) :=
  match expRequestInit req with
  | .error e => (db, .error e)
  | .ok st =>
      match st.experiment_data with
      | some ed =>
          let (db', resp) := putExperiment req db nextId tNow ed
          (db', .ok resp)
      | none => (db, .error .attributeError)

/-- Row of the `metric_types` table (score_table_models.py `MetricType`). -/
structure MtRow where
  id : Nat
  name : String
  measurement_type : String
  measurement_units : String
  stat_type : String
  description : String
  created_at : Int
  updated_at : Option Int
deriving DecidableEq, Repr

/-- Filters dict of a metric-type GET request (metric_types.py
`construct_filters`, lines 182-197): four optional string filters. -/
structure MtFilters where
  name : Option ExpStrFilter
  measurement_type : Option ExpStrFilter
  measurement_units : Option ExpStrFilter
  stat_type : Option ExpStrFilter
deriving DecidableEq, Repr

/-- Embedding of metric_types.py `construct_filters` (lines 182-197): a
`None` filters argument makes the first `get_string_filter` raise a
`TypeError`; otherwise the four string filters are chained. -/
def mtConstructFilters (filters? : Option MtFilters) :
    Except PyErr (FilterDict MtRow) :=
  match filters? with
  | none => .error .typeError
  | some f =>
      let cf := expGetStringFilterEntry f.name MtRow.name "name" []
      let cf := expGetStringFilterEntry f.measurement_type MtRow.measurement_type
        "measurement_type" cf
      let cf := expGetStringFilterEntry f.measurement_units MtRow.measurement_units
        "measurement_units" cf
      let cf := expGetStringFilterEntry f.stat_type MtRow.stat_type "stat_type" cf
      .ok cf

/-- Columns of the metric_types table reachable by `getattr` in ordering
validation. -/
def mtColumns : List String :=
  ["id", "name", "measurement_type", "measurement_units", "stat_type",
   "description", "created_at", "updated_at"]

/-- Column valuation of a metric-type row. -/
def mtColVal (r : MtRow) : String → ColVal
  | "id" => .i r.id
  | "name" => .s r.name
  | "measurement_type" => .s r.measurement_type
  | "measurement_units" => .s r.measurement_units
  | "stat_type" => .s r.stat_type
  | "description" => .s r.description
  | "created_at" => .i r.created_at
  | "updated_at" => .i (r.updated_at.getD 0)
  | _ => .i 0

/-- Embedding of `MetricTypeRequest.get_metric_types` (metric_types.py
lines 401-470): apply filters, ordering, and - when the record limit is a
positive value - `LIMIT record_limit`; report the row count and, when
positive, the rows. -/
def mtGetMetricTypes {ρ : Type} (req : ρ) (filters : Option (FilterDict MtRow))
    (ordering : Option (List RawOrderItem)) (recordLimit : Option Int)
    (db : List MtRow) : Except PyErr (DbActionResponse ρ (QueryDetails MtRow)) := do
  let rows := match filters with
    | some cf => db.filter (fun r => cf.all (fun p => p.2 r))
    | none => db
  let ord ← buildColumnOrdering mtColumns ordering
  let rows := applyOrdering mtColVal ord rows
  let rows := match recordLimit with
    | some n => if n > 0 then rows.take n.toNat else rows
    | none => rows
  let recordCount := rows.length
  .ok { request := req, success := true,
        message := some "Request for metric type records SUCCEEDED",
        details := some { record_count := recordCount,
                          records := if recordCount > 0 then some rows else none },
        errors := none }

/-- Params dict of a metric-type request. -/
structure MtParams where
  filters : Option MtFilters
  ordering : Option (List RawOrderItem)
  record_limit : PyVal
deriving Repr

/-- Metric-type request dict for the GET path: `{method, params?}`. -/
structure MtRequestModel where
  method : Option String
  params : Option MtParams
deriving Repr

/-- Whole GET-metric-types request path: `MetricTypeRequest.__post_init__`
(metric_types.py lines 278-305: method validation; for a dict params,
filter construction, ordering extraction and record-limit normalization;
otherwise all three default to `None`) followed by
`submit = get_metric_types`. -/
def mtRequestGet (req : MtRequestModel) (db : List MtRow) :
    Except PyErr (DbActionResponse MtRequestModel (QueryDetails MtRow)) := do
  let _ ← validateMethod ["GET", "PUT"] req.method
  match req.params with
  | some p => do
      let cf ← mtConstructFilters p.filters
      mtGetMetricTypes req (some cf) p.ordering
        (mtNormalizeRecordLimit p.record_limit) db
  | none => mtGetMetricTypes req none none none db

/-- Python exception class name, as it appears inside the formatted traceback
string of a failure envelope. -/
def pyErrName : PyErr → String
  | .valueError => "ValueError"
  | .typeError => "TypeError"
  | .keyError => "KeyError"
  | .attributeError => "AttributeError"
  | .nameError => "NameError"
  | .exptMetricsError => "ExptMetricsError"

/-- Row of the `expt_metrics` table (score_table_models.py
`ExperimentMetric`); `value` is nullable. -/
structure MetricRow where
  id : Nat
  experiment_id : Nat
  metric_type_id : Nat
  region_id : Nat
  elevation : Int
  elevation_unit : String
  value : Option Int
  time_valid : Int
  created_at : Int
deriving DecidableEq, Repr

/-- The four relational tables of the store. -/
structure Db where
  experiments : List ExpRow
  metric_types : List MtRow
  regions : List RegionRow
  expt_metrics : List MetricRow
deriving Repr

/-- One row of the three-way inner join
`expt_metrics JOIN experiments JOIN metric_types JOIN regions`. -/
structure JoinedRow where
  m : MetricRow
  e : ExpRow
  t : MtRow
  r : RegionRow
deriving Repr

/-- Resolution of the three foreign keys of a metric row (the `.join(...)`
chain of `get_experiment_metrics`, expt_metrics.py lines 715-723); a row with
a dangling reference drops out of the inner join. -/
def joinMetric (db : Db) (m : MetricRow) : Option JoinedRow := do
  let e ← db.experiments.find? (fun e => e.id == m.experiment_id)
  let t ← db.metric_types.find? (fun t => t.id == m.metric_type_id)
  let r ← db.regions.find? (fun r => r.id == m.region_id)
  some { m := m, e := e, t := t, r := r }

/-- Embedding of the `ExptMetricsData` namedtuple (expt_metrics.py
lines 82-102). -/
structure EMData where
  id : Nat
  name : String
  elevation : Int
  elevation_unit : String
  value : Option Int
  time_valid : Int
  expt_id : Nat
  expt_name : String
  wallclock_start : Int
  metric_id : Nat
  metric_type : String
  metric_unit : String
  metric_stat_type : String
  region_id : Nat
  region : String
  created_at : Int
deriving DecidableEq, Repr

/-- Embedding of the per-row construction of `ExptMetricsData` in
`get_experiment_metrics` (expt_metrics.py lines 739-756). -/
def parseMetric (j : JoinedRow) : EMData :=
  { id := j.m.id, name := j.t.name, elevation := j.m.elevation,
    elevation_unit := j.m.elevation_unit, value := j.m.value,
    time_valid := j.m.time_valid, expt_id := j.e.id, expt_name := j.e.name,
    wallclock_start := j.e.wallclock_start, metric_id := j.t.id,
    metric_type := j.t.measurement_type, metric_unit := j.t.measurement_units,
    metric_stat_type := j.t.stat_type, region_id := j.r.id, region := j.r.name,
    created_at := j.m.created_at }

/-- The seven-column deduplication key of `remove_metric_duplicates`
(expt_metrics.py lines 817-825). -/
structure DedupKey where
  name : String
  elevation : Int
  elevation_unit : String
  time_valid : Int
  expt_id : Nat
  metric_id : Nat
  region_id : Nat
deriving DecidableEq, Repr

/-- Key projection of a metric record. -/
def dedupKey (r : EMData) : DedupKey :=
  { name := r.name, elevation := r.elevation, elevation_unit := r.elevation_unit,
    time_valid := r.time_valid, expt_id := r.expt_id, metric_id := r.metric_id,
    region_id := r.region_id }

/-- Comparison on the `created_at` sort column. -/
def createdLe (a b : EMData) : Prop := a.created_at ≤ b.created_at

instance : DecidableRel createdLe :=
  fun a b => inferInstanceAs (Decidable (a.created_at ≤ b.created_at))

instance : IsTotal EMData createdLe :=
  ⟨fun a b => Int.le_total a.created_at b.created_at⟩

instance : IsTrans EMData createdLe :=
  ⟨fun _ _ _ hab hbc => le_trans hab hbc⟩

/-- Embedding of `m_df.sort_values('created_at')`: any sort ordered by
`created_at`; insertion sort realizes the DataFrame contract (a permutation
of the rows that is non-decreasing in the sort column). -/
def sortByCreated (l : List EMData) : List EMData := List.insertionSort createdLe l

/-- Embedding of `drop_duplicates([...7 key columns...], keep='last')`:
a row survives exactly when no later row shares its key, so the last
occurrence of every key is kept, in order. -/
def dropDupKeepLast : List EMData → List EMData
  | [] => []
  | r :: rs =>
      if rs.any (fun s => dedupKey s == dedupKey r) then dropDupKeepLast rs
      else r :: dropDupKeepLast rs

/-- Embedding of `ExptMetricRequest.remove_metric_duplicates`
(expt_metrics.py lines 807-836): sort by `created_at`, then keep the last
occurrence of each seven-column key. -/
def removeMetricDuplicates (df : List EMData) : List EMData :=
  dropDupKeepLast (sortByCreated df)

/-- Exact-match payload of an expt_metrics string filter: the source accepts
a bare string (wrapped into a singleton) or a list of strings. -/
inductive StrExact where
  | one (v : String)
  | many (vs : List String)
deriving DecidableEq, Repr

/-- String filter spec of expt_metrics.py `get_string_filter`
(lines 263-287). -/
structure EmStrFilter where
  like : Option String
  exact : Option StrExact
deriving DecidableEq, Repr

/-- Embedding of expt_metrics.py `validate_list_of_strings` (lines 244-260)
applied to `string_flt.get('exact')`: a missing `exact` entry hands `None` to
the validator, which raises a `TypeError`. -/
def emValidateListOfStrings : Option StrExact → Except PyErr (List String)
  | none => .error .typeError
  | some (.one v) => .ok [v]
  | some (.many vs) => .ok vs

/-- Embedding of expt_metrics.py `get_string_filter` (lines 263-287): `like`
wins over `exact`; the exact list becomes a set-membership (`IN`) predicate
stored under `key_name`. -/
def emGetStringFilter {α : Type} (entry? : Option EmStrFilter) (col : α → String)
    (keyName : String) (cf : FilterDict α) : Except PyErr (FilterDict α) :=
  match entry? with
  | none => .ok cf
  | some flt =>
      match flt.like with
      | some pat => .ok (dictSet cf keyName (fun row => likeMatch pat (col row)))
      | none => do
          let xs ← emValidateListOfStrings flt.exact
          .ok (dictSet cf keyName (fun row => xs.contains (col row)))

/-- Sub-filter `filters['experiment']` of an expt_metrics GET request. -/
structure EmExptFilters where
  name : Option EmStrFilter
  cycle_start : Option TimeFilterSpec
  cycle_stop : Option TimeFilterSpec
  wallclock_start : Option TimeFilterSpec
deriving DecidableEq, Repr

/-- Sub-filter `filters['metric_types']` of an expt_metrics GET request. -/
structure EmMtFilters where
  name : Option EmStrFilter
  measurement_type : Option EmStrFilter
  measurement_units : Option EmStrFilter
  stat_type : Option EmStrFilter
deriving DecidableEq, Repr

/-- Sub-filter `filters['regions']` of an expt_metrics GET request. -/
structure EmRegionFilters where
  name : Option EmStrFilter
deriving DecidableEq, Repr

/-- Filters dict of an expt_metrics GET request (expt_metrics.py
`construct_filters`, lines 556-595). -/
structure EmFilters where
  experiment : Option EmExptFilters
  metric_types : Option EmMtFilters
  regions : Option EmRegionFilters
  time_valid : Option TimeFilterSpec
  elevation_unit : Option EmStrFilter
deriving DecidableEq, Repr

/-- Embedding of `get_experiments_filter` (expt_metrics.py lines 290-313):
unlike its metric-type and region siblings this helper has NO `None` guard,
so a missing `experiment` sub-filter raises a `TypeError` at the isinstance
check; otherwise a name string filter (keyed `experiment_name`) and three
time filters (built by the CORRECT expt_metrics `get_time_filter`) are
chained. -/
def getExperimentsFilter (filterDict? : Option EmExptFilters)
    (cf : FilterDict JoinedRow) : Except PyErr (FilterDict JoinedRow) :=
  match filterDict? with
  | none => .error .typeError
  | some f => do
      let cf ← emGetStringFilter f.name (fun j => j.e.name) "experiment_name" cf
      let cf ← emGetTimeFilter f.cycle_start (fun j => j.e.cycle_start)
        "cycle_start" cf
      let cf ← emGetTimeFilter f.cycle_stop (fun j => j.e.cycle_stop)
        "cycle_stop" cf
      let cf ← emGetTimeFilter f.wallclock_start (fun j => j.e.wallclock_start)
        "wallclock_start" cf
      .ok cf

/-- Embedding of `get_metric_types_filter` (expt_metrics.py lines 316-359):
`None` is a no-op; otherwise four string filters keyed `metric_type_*`. -/
def getMetricTypesFilter (filterDict? : Option EmMtFilters)
    (cf : FilterDict JoinedRow) : Except PyErr (FilterDict JoinedRow) :=
  match filterDict? with
  | none => .ok cf
  | some f => do
      let cf ← emGetStringFilter f.name (fun j => j.t.name) "metric_type_name" cf
      let cf ← emGetStringFilter f.measurement_type
        (fun j => j.t.measurement_type) "metric_type_measurement_type" cf
      let cf ← emGetStringFilter f.measurement_units
        (fun j => j.t.measurement_units) "metric_type_measurement_units" cf
      let cf ← emGetStringFilter f.stat_type (fun j => j.t.stat_type)
        "metric_type_stat_type" cf
      .ok cf

/-- Embedding of `get_regions_filter` (expt_metrics.py lines 362-379):
`None` is a no-op; otherwise a region-name string filter keyed `rgs_name`. -/
def getRegionsFilter (filterDict? : Option EmRegionFilters)
    (cf : FilterDict JoinedRow) : Except PyErr (FilterDict JoinedRow) :=
  match filterDict? with
  | none => .ok cf
  | some f =>
      emGetStringFilter f.name (fun j => j.r.name) "rgs_name" cf

/-- Embedding of `ExptMetricRequest.construct_filters` (expt_metrics.py
lines 556-595): a non-dict `self.filters` raises an `ExptMetricsError`;
otherwise the experiment, metric-type and region sub-filters are chained,
then the direct `time_valid` time filter and `elevation_unit` string filter
on the metrics table itself. -/
def emConstructFilters (filters? : Option EmFilters) :
    Except PyErr (FilterDict JoinedRow) :=
  match filters? with
  | none => .error .exptMetricsError
  | some f => do
      let cf ← getExperimentsFilter f.experiment []
      let cf ← getMetricTypesFilter f.metric_types cf
      let cf ← getRegionsFilter f.regions cf
      let cf ← emGetTimeFilter f.time_valid (fun j => j.m.time_valid)
        "time_valid" cf
      let cf ← emGetStringFilter f.elevation_unit
        (fun j => j.m.elevation_unit) "elevation_unit" cf
      .ok cf

/-- Columns of the expt_metrics table reachable by `getattr` for the
`build_column_ordering(ex_mt, ...)` validation. -/
def emColumns : List String :=
  ["id", "experiment_id", "metric_type_id", "region_id", "elevation",
   "elevation_unit", "value", "time_valid", "created_at"]

/-- Column valuation of a joined row by expt_metrics-table column name. -/
def emColVal (j : JoinedRow) : String → ColVal
  | "id" => .i j.m.id
  | "experiment_id" => .i j.m.experiment_id
  | "metric_type_id" => .i j.m.metric_type_id
  | "region_id" => .i j.m.region_id
  | "elevation" => .i j.m.elevation
  | "elevation_unit" => .s j.m.elevation_unit
  | "value" => .i (j.m.value.getD 0)
  | "time_valid" => .i j.m.time_valid
  | "created_at" => .i j.m.created_at
  | _ => .i 0

/-- Embedding of `ExptMetricRequest.get_experiment_metrics` (expt_metrics.py
lines 710-804): join, filter, order, parse into `ExptMetricsData` records,
deduplicate, and report the count and rows.  Note that `self.record_limit`
is never consulted: the pipeline has no `LIMIT` step. -/
def getExperimentMetrics {ρ : Type} (req : ρ) (filters? : Option EmFilters)
    (ordering : Option (List RawOrderItem)) (db : Db) :
    Except PyErr (DbActionResponse ρ (QueryDetails EMData)) := do
  let joined := db.expt_metrics.filterMap (joinMetric db)
  let cf ← emConstructFilters filters?
  let rows := joined.filter (fun j => cf.all (fun p => p.2 j))
  let ord ← buildColumnOrdering emColumns ordering
  let rows := applyOrdering emColVal ord rows
  let parsed := rows.map parseMetric
  let unique := removeMetricDuplicates parsed
  let results := if parsed.length > 0 then unique else []
  let recordCount := results.length
  .ok { request := req, success := true,
        message := some "Request for experiment metrics SUCCEEDED",
        details := some { record_count := recordCount,
                          records := if recordCount > 0 then some results else none },
        errors := none }

/-- Embedding of the `ExptMetricInputData` namedtuple (expt_metrics.py
lines 69-79); `value = none` models a NaN measurement. -/
structure EmMetricInput where
  name : String
  region_name : String
  elevation : Int
  elevation_unit : String
  value : Option Int
  time_valid : Int
deriving DecidableEq, Repr

/-- Body of an expt_metrics PUT request (fields as delivered by `dict.get`,
with the wallclock string already parsed to a timestamp). -/
structure EmBody where
  expt_name : Option String
  expt_wallclock_start : Option Int
  metrics : Option (List EmMetricInput)
deriving DecidableEq, Repr

/-- Params dict of an expt_metrics request;
`ExptMetricRequest.__post_init__` stores `record_limit` verbatim, without the
normalization the experiment and metric-type handlers perform. -/
structure EmParams where
  filters : Option EmFilters
  ordering : Option (List RawOrderItem)
  record_limit : PyVal
deriving Repr

/-- Expt_metrics request dict: `{method, params?, body?}`. -/
structure EmRequestModel where
  method : Option String
  params : Option EmParams
  body : Option EmBody
deriving Repr

/-- The experiment-lookup request dict `get_expt_record` builds
(expt_metrics.py lines 447-464): exact name filter, exact wallclock_start
time filter, descending ordering, record limit 1. -/
def exptLookupRequest (body : EmBody) : ExpRequestModel :=
  { method := some "GET"
    params := some
      { filters := some
          { name := some { like := none, exact := body.expt_name }
            cycle_start := none
            cycle_stop := none
            wallclock_start := some
              { exactDt := body.expt_wallclock_start, fromDt := none, toDt := none }
            wallclock_end := none
            owner_id := none
            group_id := none }
        ordering := some [{ name := some "wallclock_start", order_by := some "desc" }]
        record_limit := .int 1 }
    body := none }

/-- Embedding of `get_expt_record` (expt_metrics.py lines 434-490): a `None`
body raises an `AttributeError` at `body.get`; the `ExperimentRequest`
constructor and `submit` calls sit OUTSIDE the try block, so their exceptions
propagate unchanged (and the constructor always raises the `NameError` of
`expConstructFilters`); the guarded tail converts an unsuccessful lookup, a
missing records frame, or an empty frame into an `ExptMetricsError`. -/
def getExptRecord (body? : Option EmBody) (expDb : List ExpRow) :
    Except PyErr (List ExpRow) :=
  match body? with
  | none => .error .attributeError
  | some body =>
      let er := exptLookupRequest body
      match expRequestInit er with
      | .error e => .error e
      | .ok st =>
          match expGetExperiments er st.filters st.ordering st.record_limit expDb with
          | .error e => .error e
          | .ok results =>
              if results.success then
                match results.details.bind (·.records) with
                | some records =>
                    if records.length = 0 then .error .exptMetricsError
                    else .ok records
                | none => .error .exptMetricsError
              else .error .exptMetricsError

/-- Embedding of `ExptMetricRequest.put_expt_metrics_data` (expt_metrics.py
lines 680-708).  Its own comment states that "all calls to this function
must return a DbActionResponse object", yet the function body contains NO
return statement: when no exception escapes, the Python value produced is
`None` (modelled by `.ok none`).  In the code as it stands that success path
is unreachable: `get_expt_record` always raises (see `getExptRecord` and
`expGetTimeFilter`), and even past that, `parse_metrics_data` calls
`rg.get_regions_from_name_list`, an attribute the regions module does not
define, raising an `AttributeError`. -/
def putExptMetricsData (req : EmRequestModel) (db : Db) :
    Db × Except PyErr (Option (DbActionResponse EmRequestModel (QueryDetails EMData))) :=
  match getExptRecord req.body db.experiments with
  | .error e => (db, .error e)
  | .ok records =>
      if records.length = 0 then (db, .error .exptMetricsError)
      else
        match req.body with
        | none => (db, .error .exptMetricsError)
        | some b =>
            match b.metrics with
            | none => (db, .error .exptMetricsError)
            | some _ms => (db, .error .attributeError)

/-- Embedding of `ExptMetricRequest.failed_request` (expt_metrics.py
lines 546-553): the failure envelope with `success = False` and `details =
None`. -/
def emFailedRequest (req : EmRequestModel) (errMsg : String) :
    DbActionResponse EmRequestModel (QueryDetails EMData) :=
  { request := req, success := false,
    message := some "Failed experiment metrics request.",
    details := none, errors := some errMsg }

/-- Embedding of `ExptMetricRequest.__post_init__` plus `submit`
(expt_metrics.py lines 506-543): method validation, verbatim extraction of
filters/ordering (no record-limit use anywhere downstream), then the GET and
PUT branches, EACH of which catches every exception and converts it into the
`failed_request` envelope.  The outer `Except` can only fail on the method
validation performed during request construction. -/
def emRequestFlow (req : EmRequestModel) (db : Db) :
    Except PyErr (Db × Option (DbActionResponse EmRequestModel (QueryDetails EMData))) := do
  let method ← validateMethod ["GET", "PUT"] req.method
  let filters? := req.params.bind (·.filters)
  let ordering := req.params.bind (·.ordering)
  if method = "GET" then
    match getExperimentMetrics req filters? ordering db with
    | .ok resp => .ok (db, some resp)
    | .error e =>
        .ok (db, some (emFailedRequest req
          ("Failed to get experiment metric records - trcbk: " ++ pyErrName e)))
  else
    match putExptMetricsData req db with
    | (db', .ok response) => .ok (db', response)
    | (db', .error e) =>
        .ok (db', some (emFailedRequest req
          ("Failed to insert experiment metric records - trcbk: " ++ pyErrName e)))

/-- Request identical to `req` except for the `params.record_limit` value. -/
def setRecordLimit (req : EmRequestModel) (v : PyVal) : EmRequestModel :=
  { req with params := req.params.map (fun p => { p with record_limit := v }) }

/-- Envelope with the echoed request stripped (the echoed request_dict
trivially differs between two requests that differ in `record_limit`). -/
def stripEnvelope {ρ δ : Type} (r : DbActionResponse ρ δ) :
    Bool × Option String × Option δ × Option String :=
  (r.success, r.message, r.details, r.errors)

/-- Observable outcome of an expt_metrics request: the final database and
the request-stripped envelope. -/
def emFlowStripped (req : EmRequestModel) (db : Db) :
    Except PyErr (Db × Option (Bool × Option String ×
      Option (QueryDetails EMData) × Option String)) :=
  (emRequestFlow req db).map (fun p => (p.1, p.2.map stripEnvelope))

/-- Names registered in `request_registry` (db_request_registry.py
lines 35-66). -/
def registryKeys : List String :=
  ["region", "experiment", "expt_metrics", "metric_types",
   "harvest_innov_stats", "plot_innov_stats"]

/-- Fields of the `RequestHandler` namedtuple (db_request_registry.py
lines 26-33). -/
def requestHandlerFields : List String := ["description", "request", "result"]

/-- Python attribute lookup on a namedtuple instance. -/
def namedtupleHasAttr (fields : List String) (attr : String) : Bool :=
  fields.contains attr

/-- Embedding of `handle_request` (score_db_base.py lines 13-58) on an
already-loaded request dict, driven by its `request_name` value.  The try
block only runs `dict.get` calls, which never raise, so the `except` clause
that would re-raise a `KeyError` is dead.  The first statement after the try
block evaluates `db_request_handler.name` inside an f-string: for an
unregistered name the handler is `None` and `None.name` raises an
`AttributeError`; for a registered name the handler is a `RequestHandler`
namedtuple whose fields are `(description, request, result)` - no `name`
field - so the lookup again raises an `AttributeError`.  Were that print to
succeed, the next statement reads the never-defined variable `request_meta`
(a `NameError`); the handler construction, `submit()` call and `return` on
lines 54-58 are unreachable for every input. -/
def handleRequest (requestName? : Option String) : Except PyErr Unit :=
  let handlerFound :=
    match requestName? with
    | some n => registryKeys.contains n
    | none => false
  if handlerFound then
    if namedtupleHasAttr requestHandlerFields "name" then .error .nameError
    else .error .attributeError
  else .error .attributeError

/-- Metric-type filters dict with no entries (an empty `filters` dict in the
request params). -/
def mtNoFilters : MtFilters :=
  { name := none, measurement_type := none, measurement_units := none,
    stat_type := none }

/-- Experiment filters dict with no entries (an empty `filters` dict in the
request params). -/
def expNoFilters : ExpFilters :=
  { name := none, cycle_start := none, cycle_stop := none,
    wallclock_start := none, wallclock_end := none, owner_id := none,
    group_id := none }

/-- Sample experiment row used by the concrete request scenarios. -/
def expRowA : ExpRow :=
  { id := 1, name := "expt1", cycle_start := 0, cycle_stop := 10,
    owner_id := "owner", group_id := "grp", experiment_type := "etype",
    platform := "hera", wallclock_start := 5, wallclock_end := none,
    description := "desc", created_at := 0, updated_at := none }

/-- Sample metric-type row used by the concrete request scenarios. -/
def mtRowA : MtRow :=
  { id := 1, name := "m1", measurement_type := "temperature",
    measurement_units := "K", stat_type := "rmsd", description := "desc",
    created_at := 0, updated_at := none }

/-- Sample region row used by the concrete request scenarios. -/
def regionRowA : RegionRow :=
  { id := 1, name := "global", bounds := "bounds", created_at := 0,
    updated_at := none }

/-- Two metric rows that share every foreign key but differ in `time_valid`
(hence in the deduplication key). -/
def metricRow1 : MetricRow :=
  { id := 1, experiment_id := 1, metric_type_id := 1, region_id := 1,
    elevation := 0, elevation_unit := "kpa", value := some 2,
    time_valid := 10, created_at := 5 }

/-- Second sample metric row. -/
def metricRow2 : MetricRow :=
  { id := 2, experiment_id := 1, metric_type_id := 1, region_id := 1,
    elevation := 0, elevation_unit := "kpa", value := some 3,
    time_valid := 20, created_at := 6 }

/-- Fully populated store: one experiment, one metric type, one region, two
joinable metric rows. -/
def dbFull : Db :=
  { experiments := [expRowA], metric_types := [mtRowA],
    regions := [regionRowA], expt_metrics := [metricRow1, metricRow2] }

/-- Well-formed expt_metrics PUT request whose referenced experiment,
region and metric type all exist in `dbFull`. -/
def emPutReq : EmRequestModel :=
  { method := some "PUT", params := none,
    body := some
      { expt_name := some "expt1", expt_wallclock_start := some 5,
        metrics := some
          [{ name := "m1", region_name := "global", elevation := 0,
             elevation_unit := "kpa", value := some 3, time_valid := 7 }] } }

/-- Expt_metrics GET request with no params at all (so `self.filters` is
`None` and `construct_filters` raises). -/
def emGetReqNoParams : EmRequestModel :=
  { method := some "GET", params := none, body := none }

/-- Expt_metrics GET request selecting the `expt1` experiment, with
`record_limit = 1`. -/
def emGetReqLimited : EmRequestModel :=
  { method := some "GET",
    params := some
      { filters := some
          { experiment := some
              { name := some { like := none, exact := some (.one "expt1") },
                cycle_start := none, cycle_stop := none,
                wallclock_start := none },
            metric_types := none, regions := none, time_valid := none,
            elevation_unit := none },
        ordering := none, record_limit := .int 1 },
    body := none }

/-- Sample metric record (dedup-key twin of `emRecB`, created earlier). -/
def emRecA : EMData :=
  { id := 1, name := "m1", elevation := 0, elevation_unit := "kpa",
    value := some 1, time_valid := 10, expt_id := 1, expt_name := "expt1",
    wallclock_start := 5, metric_id := 1, metric_type := "temperature",
    metric_unit := "K", metric_stat_type := "rmsd", region_id := 1,
    region := "global", created_at := 5 }

/-- Sample metric record sharing the seven-column dedup key of `emRecA` but
created later. -/
def emRecB : EMData :=
  { id := 2, name := "m1", elevation := 0, elevation_unit := "kpa",
    value := some 2, time_valid := 10, expt_id := 1, expt_name := "expt1",
    wallclock_start := 5, metric_id := 1, metric_type := "temperature",
    metric_unit := "K", metric_stat_type := "rmsd", region_id := 1,
    region := "global", created_at := 9 }

/-!
Theorems settling the claims, with the shared helper lemmas they need.
-/

/-- C1: the claim states that `handle_request` constructs the registered
handler, calls `submit()` and returns its response, and that unknown request
names fail with a lookup error.  In fact every call - registered or not -
raises an `AttributeError` at the debug print `db_request_handler.name`
(the `RequestHandler` namedtuple has no `name` field, and for unknown names
the handler is `None`), so no request ever reaches `submit()` and unknown
names do not produce a lookup error either. -/
theorem handle_request_always_raises_attribute_error :
    (∀ n : Option String, handleRequest n = .error .attributeError) ∧
    registryKeys.contains "region" = true ∧
    registryKeys.contains "bogus" = false := by
  refine ⟨fun n => ?_, by decide, by decide⟩
  match n with
  | none => rfl
  | some s =>
      unfold handleRequest
      cases h : registryKeys.contains s <;> simp [h] <;> intro _ <;> decide

/-- C2: the claim expects the stored and returned bounds string of the
`global` region to be the full WKT polygon.  The PUT-then-GET round trip
does return exactly one record, but its bounds string lacks the `POLYGON(`
prefix (the second assignment in `Region.__post_init__` uses `=` where `+=`
was intended), so it differs from the claimed string. -/
theorem region_global_put_get_missing_polygon_prefix :
    ((regionRequestGetByName
        (regionRequestPut [] 1 100
          [{ name := "global", min_lat := -90, max_lat := 90 }]).1
        ["global"]).details.map (·.matched_records))
      = some [{ id := 1, name := "global",
                bounds := "(-180.0 90.0),(180.0 90.0),(180.0 -90.0),(-180.0 -90.0),(-180.0 90.0))",
                created_at := 100, updated_at := none }] ∧
    regionGrid (-90) 90 ≠
      "POLYGON((-180.0 90.0),(180.0 90.0),(180.0 -90.0),(-180.0 -90.0),(-180.0 90.0))" := by
  exact ⟨by decide, by decide⟩

/-- C4: the expt_metrics filter builder behaves as claimed - with both
bounds and `to < from` it raises a `ValueError`, and with only `from` it
stores the predicate holding exactly on rows whose column is at least the
`from` timestamp - but the experiments copy of `get_time_filter` reads the
undefined name `filters` (its parameter is `filter`) and therefore raises a
`NameError` on every call instead. -/
theorem time_filter_from_bound_and_inverted_range :
    (∀ (α : Type) (col : α → Int) (key : String) (cf : FilterDict α) (f t : Int),
        t < f →
        emGetTimeFilter (some { exactDt := none, fromDt := some f, toDt := some t })
          col key cf = .error .valueError) ∧
    (∀ (α : Type) (col : α → Int) (key : String) (cf : FilterDict α) (f : Int),
        ∃ p, emGetTimeFilter (some { exactDt := none, fromDt := some f, toDt := none })
            col key cf = .ok (dictSet cf key p) ∧
          ∀ row, p row = true ↔ f ≤ col row) ∧
    (∀ (α : Type) (col : α → Int) (key : String) (cf : FilterDict α)
        (entry? : Option TimeFilterSpec),
        expGetTimeFilter entry? col key cf = .error .nameError) := by
  refine ⟨?_, ?_, ?_⟩
  · intro α col key cf f t h
    simp [emGetTimeFilter, h]
  · intro α col key cf f
    exact ⟨fun row => decide (f ≤ col row), rfl, fun row => by simp⟩
  · intro α col key cf e
    cases e <;> rfl

/-- Witness for the hypothesis of `time_filter_from_bound_and_inverted_range`:
the inverted range `from = 5, to = 3` on a concrete integer column. -/
theorem time_filter_from_bound_and_inverted_range_witness :
    emGetTimeFilter (some { exactDt := none, fromDt := some 5, toDt := some 3 })
      (fun n : Int => n) "time_valid" [] = .error .valueError :=
  time_filter_from_bound_and_inverted_range.1 Int (fun n => n) "time_valid" [] 5 3
    (by decide)

/-- C9: an experiment PUT whose body has `cycle_start` later than
`cycle_stop` is rejected with a `ValueError` during request construction
(`Experiment.__post_init__`, reached from `ExperimentRequest.__post_init__`),
before `submit` can run, and the experiments table is unchanged. -/
theorem experiment_put_bad_cycle_window_fails_before_write
    (db : List ExpRow) (nextId : Nat) (tNow : Int) (b : ExpBody) (d : String)
    (hdesc : b.description = some d) (hcyc : b.cycle_start > b.cycle_stop) :
    experimentPutFlow { method := some "PUT", params := none, body := some b }
      db nextId tNow = (db, .error .valueError) := by
  unfold experimentPutFlow expRequestInit
  simp [validateMethod, getExperimentFromBody, hdesc, mkExperiment, hcyc,
    Bind.bind, Except.bind, Pure.pure, Except.pure]

/-- Witness for `experiment_put_bad_cycle_window_fails_before_write`: a body
with `cycle_start = 9 > 1 = cycle_stop` on the singleton store `[expRowA]`. -/
theorem experiment_put_bad_cycle_window_fails_before_write_witness :
    experimentPutFlow
      { method := some "PUT", params := none,
        body := some
          { name := "expt2", cycle_start := 9, cycle_stop := 1,
            owner_id := "o", group_id := "g", experiment_type := "t",
            platform := "hera", wallclock_start := 0, wallclock_end := 0,
            description := some "desc" } }
      [expRowA] 2 50 = ([expRowA], .error .valueError) :=
  experiment_put_bad_cycle_window_fails_before_write [expRowA] 2 50 _ "desc"
    rfl (by decide)

/-- Helper: experiments.py `construct_filters` fails on every input - a
`TypeError` when the filters value is not a dict, and otherwise the
`NameError` of `get_time_filter` at the `cycle_start` step. -/
theorem expConstructFilters_always_error (f? : Option ExpFilters) :
    expConstructFilters f? =
      .error (match f? with | none => PyErr.typeError | some _ => PyErr.nameError) := by
  cases f? with
  | none => rfl
  | some f =>
      obtain ⟨n, cs, cst, ws, we, oi, gi⟩ := f
      cases cs <;> rfl

/-- C7: two successive experiment PUTs with the same `(name,
wallclock_start)` key, starting from a store without that key: the first
reports action `INSERT` (its returned row has `updated_at = None`), the
second hits the `unique_experiment` conflict branch, which sets
`wallclock_end` and `updated_at` to the current time and therefore reports
`UPDATE`. -/
theorem experiment_put_insert_then_update (db : List ExpRow) (id1 id2 : Nat)
    (t1 t2 : Int) (ed : ExperimentData)
    (hfresh : ∀ r ∈ db,
      ¬(r.name = ed.name ∧ r.wallclock_start = ed.wallclock_start)) :
    ((putExperiment () db id1 t1 ed).2.details.map (·.action)) = some INSERT ∧
    ((putExperiment () (putExperiment () db id1 t1 ed).1 id2 t2 ed).2.details.map
        (·.action)) = some UPDATE ∧
    ∃ row, (putExperiment () (putExperiment () db id1 t1 ed).1 id2 t2 ed).2.details.map
        (·.data) = some [row] ∧ row.wallclock_end = some t2 ∧
        row.updated_at = some t2 := by
  have h1 : db.find? (fun r =>
      r.name == ed.name && r.wallclock_start == ed.wallclock_start) = none := by
    rw [List.find?_eq_none]
    intro x hx
    simpa using hfresh x hx
  simp only [putExperiment, h1, List.find?_append]
  simp only [Option.none_or, List.find?_cons_of_pos, beq_self_eq_true,
    Bool.and_self]
  exact ⟨rfl, rfl, ⟨_, rfl, rfl, rfl⟩⟩

/-- Witness for `experiment_put_insert_then_update`: the empty store and a
concrete experiment tuple. -/
theorem experiment_put_insert_then_update_witness :
    ((putExperiment () [] 1 10
        { name := "expt1", cycle_start := 0, cycle_stop := 5,
          owner_id := "o", group_id := "g", experiment_type := "t",
          platform := "hera", wallclock_start := 3, wallclock_end := 4,
          description := "desc" }).2.details.map (·.action)) = some INSERT ∧
    ((putExperiment ()
        (putExperiment () [] 1 10
          { name := "expt1", cycle_start := 0, cycle_stop := 5,
            owner_id := "o", group_id := "g", experiment_type := "t",
            platform := "hera", wallclock_start := 3, wallclock_end := 4,
            description := "desc" }).1 2 20
        { name := "expt1", cycle_start := 0, cycle_stop := 5,
          owner_id := "o", group_id := "g", experiment_type := "t",
          platform := "hera", wallclock_start := 3, wallclock_end := 4,
          description := "desc" }).2.details.map (·.action)) = some UPDATE :=
  have h := experiment_put_insert_then_update [] 1 2 10 20
    { name := "expt1", cycle_start := 0, cycle_stop := 5,
      owner_id := "o", group_id := "g", experiment_type := "t",
      platform := "hera", wallclock_start := 3, wallclock_end := 4,
      description := "desc" } (by simp)
  ⟨h.1, h.2.1⟩


/-- C8: region insertion is idempotent by hash.  Starting from a store with
no row whose `unique_region` value equals the hash of a valid region input,
a PUT listing that region twice inserts exactly one row for its
`(name, bounds)` pair (the in-request duplicate collapses through the
validation set), and a second PUT of the same region inserts nothing,
leaving the store - and in particular that single row - unchanged. -/
theorem region_put_idempotent_by_hash (db : List RegionRow) (id1 id2 : Nat)
    (t1 t2 : Int) (inp : RegionInput) (rd : RegionData)
    (hmk : mkRegion inp.name inp.min_lat inp.max_lat = .ok rd)
    (h0 : ∀ r ∈ db, uniqueRegion r ≠ rd.hash_val) :
    ((regionRequestPut db id1 t1 [inp, inp]).1.filter
        (fun r => r.name == rd.name && r.bounds == rd.grid)).length = 1 ∧
    (regionRequestPut (regionRequestPut db id1 t1 [inp, inp]).1 id2 t2
        [inp]).1 = (regionRequestPut db id1 t1 [inp, inp]).1 := by
  have hkey : rd.hash_val = rd.name ++ rd.grid := by
    simp only [mkRegion] at hmk
    split_ifs at hmk
    injection hmk with h
    rw [← h]
  have hval2 : validateListOfRegions [inp, inp] = .ok [rd] := by
    simp [validateListOfRegions, validateRegionEntries, hmk, setCollapse,
      Bind.bind, Except.bind]
  have hval1 : validateListOfRegions [inp] = .ok [rd] := by
    simp [validateListOfRegions, validateRegionEntries, hmk, setCollapse,
      Bind.bind, Except.bind]
  have hex : db.filter (fun r => decide (uniqueRegion r = rd.hash_val)) = [] := by
    rw [List.filter_eq_nil_iff]
    intro r hr
    simpa using h0 r hr
  have hdbpair :
      db.filter (fun r => r.name == rd.name && r.bounds == rd.grid) = [] := by
    rw [List.filter_eq_nil_iff]
    intro r hr
    simp only [Bool.and_eq_true, beq_iff_eq, not_and]
    intro hn hb
    exact absurd (by rw [uniqueRegion, hn, hb, hkey]) (h0 r hr)
  have hput1 : (regionRequestPut db id1 t1 [inp, inp]).1 =
      db ++ [RegionRow.mk id1 rd.name rd.grid t1 none] := by
    simp [regionRequestPut, hval2, regionSubmitPut, regionGetSet, hex,
      List.range_succ]
  constructor
  · rw [hput1, List.filter_append, hdbpair]
    simp
  · have hput2 : (regionRequestPut
        (db ++ [RegionRow.mk id1 rd.name rd.grid t1 none]) id2 t2 [inp]).1 =
        db ++ [RegionRow.mk id1 rd.name rd.grid t1 none] := by
      simp [regionRequestPut, hval1, regionSubmitPut, regionGetSet,
        List.filter_append, hex, uniqueRegion, hkey]
    rw [hput1, hput2]

/-- Witness for `region_put_idempotent_by_hash`: the `global` region put
twice into the empty store. -/
theorem region_put_idempotent_by_hash_witness :
    ((regionRequestPut [] 1 10
        [{ name := "global", min_lat := -90, max_lat := 90 },
         { name := "global", min_lat := -90, max_lat := 90 }]).1.filter
      (fun r => r.name == "global" && r.bounds == regionGrid (-90) 90)).length = 1 ∧
    (regionRequestPut
        (regionRequestPut [] 1 10
          [{ name := "global", min_lat := -90, max_lat := 90 },
           { name := "global", min_lat := -90, max_lat := 90 }]).1 2 20
        [{ name := "global", min_lat := -90, max_lat := 90 }]).1 =
      (regionRequestPut [] 1 10
        [{ name := "global", min_lat := -90, max_lat := 90 },
         { name := "global", min_lat := -90, max_lat := 90 }]).1 :=
  region_put_idempotent_by_hash [] 1 2 10 20
    { name := "global", min_lat := -90, max_lat := 90 }
    { name := "global", min_lat := -90, max_lat := 90,
      grid := regionGrid (-90) 90, hash_val := "global" ++ regionGrid (-90) 90 }
    rfl (by simp)

/-- Helper: every survivor of `dropDupKeepLast` is a row of the input. -/
theorem mem_of_mem_dropDupKeepLast {x : EMData} :
    ∀ {l : List EMData}, x ∈ dropDupKeepLast l → x ∈ l := by
  intro l
  induction l with
  | nil => exact fun h => h
  | cons a t ih =>
      intro h
      rw [dropDupKeepLast] at h
      split at h
      · exact List.mem_cons_of_mem a (ih h)
      · rcases List.mem_cons.mp h with h1 | h2
        · exact h1 ▸ List.mem_cons_self a t
        · exact List.mem_cons_of_mem a (ih h2)

/-- Helper: on a list that is non-decreasing in `created_at`,
`dropDupKeepLast` keeps exactly one row per present key, and that row has
the greatest `created_at` of its key group. -/
theorem dropDup_filter_key (k : DedupKey) :
    ∀ (l : List EMData), l.Pairwise createdLe →
      (∃ x ∈ l, dedupKey x = k) →
      ∃ r, (dropDupKeepLast l).filter (fun x => dedupKey x == k) = [r] ∧
        r ∈ l ∧ dedupKey r = k ∧
        ∀ x ∈ l, dedupKey x = k → x.created_at ≤ r.created_at := by
  intro l
  induction l with
  | nil => exact fun _ hk => absurd hk (by simp)
  | cons a t ih =>
      intro hp hk
      have hrel : ∀ b ∈ t, createdLe a b := (List.pairwise_cons.mp hp).1
      have htp : t.Pairwise createdLe := (List.pairwise_cons.mp hp).2
      rw [dropDupKeepLast]
      by_cases hany : (t.any (fun s => dedupKey s == dedupKey a)) = true
      · rw [if_pos hany]
        by_cases hak : dedupKey a = k
        · have hkt : ∃ x ∈ t, dedupKey x = k := by
            rcases List.any_eq_true.mp hany with ⟨s, hs, hbeq⟩
            rw [beq_iff_eq] at hbeq
            exact ⟨s, hs, by rw [hbeq, hak]⟩
          rcases ih htp hkt with ⟨r, hf, hm, hrk, hmax⟩
          refine ⟨r, hf, List.mem_cons_of_mem a hm, hrk, ?_⟩
          intro x hx hxk
          rcases List.mem_cons.mp hx with h1 | h2
          · exact h1 ▸ hrel r hm
          · exact hmax x h2 hxk
        · have hkt : ∃ x ∈ t, dedupKey x = k := by
            rcases hk with ⟨x, hx, hxk⟩
            rcases List.mem_cons.mp hx with h1 | h2
            · exact absurd (h1 ▸ hxk) hak
            · exact ⟨x, h2, hxk⟩
          rcases ih htp hkt with ⟨r, hf, hm, hrk, hmax⟩
          refine ⟨r, hf, List.mem_cons_of_mem a hm, hrk, ?_⟩
          intro x hx hxk
          rcases List.mem_cons.mp hx with h1 | h2
          · exact absurd (h1 ▸ hxk) hak
          · exact hmax x h2 hxk
      · rw [if_neg hany]
        have hnot : ∀ s ∈ t, dedupKey s ≠ dedupKey a := by
          intro s hs heq
          exact hany (List.any_eq_true.mpr ⟨s, hs, by rw [beq_iff_eq]; exact heq⟩)
        by_cases hak : dedupKey a = k
        · refine ⟨a, ?_, List.mem_cons_self a t, hak, ?_⟩
          · rw [List.filter_cons_of_pos (by rw [beq_iff_eq]; exact hak)]
            have hnil : (dropDupKeepLast t).filter
                (fun x => dedupKey x == k) = [] := by
              rw [List.filter_eq_nil_iff]
              intro x hx
              have hxt : x ∈ t := mem_of_mem_dropDupKeepLast hx
              simp only [beq_iff_eq]
              exact fun hcon => hnot x hxt (by rw [hcon, hak])
            rw [hnil]
          · intro x hx hxk
            rcases List.mem_cons.mp hx with h1 | h2
            · exact h1 ▸ le_refl _
            · exact absurd (by rw [hxk, ← hak]) (fun hcon => hnot x h2 hcon)
        · rw [List.filter_cons_of_neg (by simp only [beq_iff_eq]; exact hak)]
          have hkt : ∃ x ∈ t, dedupKey x = k := by
            rcases hk with ⟨x, hx, hxk⟩
            rcases List.mem_cons.mp hx with h1 | h2
            · exact absurd (h1 ▸ hxk) hak
            · exact ⟨x, h2, hxk⟩
          rcases ih htp hkt with ⟨r, hf, hm, hrk, hmax⟩
          refine ⟨r, hf, List.mem_cons_of_mem a hm, hrk, ?_⟩
          intro x hx hxk
          rcases List.mem_cons.mp hx with h1 | h2
          · exact absurd (h1 ▸ hxk) hak
          · exact hmax x h2 hxk

/-- C5: after `remove_metric_duplicates`, among all rows sharing one
seven-column key `(name, elevation, elevation_unit, time_valid, expt_id,
metric_id, region_id)` exactly one row survives, it comes from the input
table, and its `created_at` is greatest in its key group. -/
theorem remove_metric_duplicates_keeps_unique_latest (df : List EMData)
    (k : DedupKey) (hk : ∃ x ∈ df, dedupKey x = k) :
    ∃ r, (removeMetricDuplicates df).filter (fun x => dedupKey x == k) = [r] ∧
      r ∈ df ∧ dedupKey r = k ∧
      ∀ x ∈ df, dedupKey x = k → x.created_at ≤ r.created_at := by
  have hperm : List.Perm (sortByCreated df) df := List.perm_insertionSort createdLe df
  have hsorted : (sortByCreated df).Pairwise createdLe :=
    List.sorted_insertionSort createdLe df
  have hk' : ∃ x ∈ sortByCreated df, dedupKey x = k := by
    rcases hk with ⟨x, hx, hxk⟩
    exact ⟨x, hperm.mem_iff.mpr hx, hxk⟩
  rcases dropDup_filter_key k (sortByCreated df) hsorted hk' with
    ⟨r, hf, hm, hrk, hmax⟩
  exact ⟨r, hf, hperm.mem_iff.mp hm, hrk,
    fun x hx hxk => hmax x (hperm.mem_iff.mpr hx) hxk⟩

/-- Witness for `remove_metric_duplicates_keeps_unique_latest`: two records
sharing the key of `emRecA`, created at times 5 and 9. -/
theorem remove_metric_duplicates_keeps_unique_latest_witness :
    ∃ r, (removeMetricDuplicates [emRecA, emRecB]).filter
        (fun x => dedupKey x == dedupKey emRecA) = [r] ∧
      r ∈ [emRecA, emRecB] ∧ dedupKey r = dedupKey emRecA ∧
      ∀ x ∈ [emRecA, emRecB], dedupKey x = dedupKey emRecA →
        x.created_at ≤ r.created_at :=
  remove_metric_duplicates_keeps_unique_latest [emRecA, emRecB]
    (dedupKey emRecA) ⟨emRecA, by simp, rfl⟩

/-- C3: the claim says every `ExptMetricRequest.submit` call returns the
uniform envelope and that a successful PUT does too.  The failure-conversion
half is real - both branches catch internal errors and return
`failed_request` envelopes - but no PUT can ever succeed: the experiment
lookup inside `put_expt_metrics_data` always raises the `NameError` of
experiments.py `get_time_filter`, so even a well-formed PUT over a fully
populated store yields a `success = False` envelope and writes nothing; and
the success path that the claim describes would return Python `None`, since
`put_expt_metrics_data` has no return statement despite its own comment
demanding a `DbActionResponse`. -/
theorem expt_metrics_put_never_returns_success_envelope :
    emRequestFlow emPutReq dbFull =
      .ok (dbFull, some (emFailedRequest emPutReq
        "Failed to insert experiment metric records - trcbk: NameError")) ∧
    (emFailedRequest emPutReq
      "Failed to insert experiment metric records - trcbk: NameError").success
        = false ∧
    emRequestFlow emGetReqNoParams dbFull =
      .ok (dbFull, some (emFailedRequest emGetReqNoParams
        "Failed to get experiment metric records - trcbk: ExptMetricsError")) :=
  ⟨rfl, rfl, rfl⟩

/-- C6 counterexample: a GET experiment-metric request carrying
`record_limit = 1` over a store whose join yields two distinct metric
records is answered with BOTH records (`record_count = 2`), because
`get_experiment_metrics` never applies `record_limit`. -/
theorem expt_metrics_get_ignores_record_limit_counterexample :
    (emRequestFlow emGetReqLimited dbFull).map
        (fun p => p.2.map (fun r => (r.success, r.details.map (·.record_count)))) =
      .ok (some (true, some 2)) ∧
    emGetReqLimited.params.map (·.record_limit) = some (.int 1) :=
  ⟨rfl, rfl⟩

/-- Helper: the request-stripped outcome of `get_experiment_metrics` does
not depend on the echoed request object. -/
theorem strip_getExperimentMetrics {ρ₁ ρ₂ : Type} (r1 : ρ₁) (r2 : ρ₂)
    (f : Option EmFilters) (o : Option (List RawOrderItem)) (db : Db) :
    (getExperimentMetrics r1 f o db).map stripEnvelope =
      (getExperimentMetrics r2 f o db).map stripEnvelope := by
  unfold getExperimentMetrics
  simp only [Bind.bind, Except.bind]
  cases emConstructFilters f with
  | error e => rfl
  | ok cf =>
      cases buildColumnOrdering emColumns o with
      | error e => rfl
      | ok ord => rfl

/-- Helper: `put_expt_metrics_data` reads the request only through its
body. -/
theorem putExptMetricsData_body_only (r1 r2 : EmRequestModel) (db : Db)
    (hb : r1.body = r2.body) :
    putExptMetricsData r1 db = putExptMetricsData r2 db := by
  unfold putExptMetricsData
  rw [hb]

/-- Helper: the stripped outcome of an expt_metrics request depends only on
the method, the filters, the ordering and the body - in particular not on
`params.record_limit`. -/
theorem emFlowStripped_congr (r1 r2 : EmRequestModel) (db : Db)
    (hm : r1.method = r2.method)
    (hf : r1.params.bind (·.filters) = r2.params.bind (·.filters))
    (ho : r1.params.bind (·.ordering) = r2.params.bind (·.ordering))
    (hb : r1.body = r2.body) :
    emFlowStripped r1 db = emFlowStripped r2 db := by
  unfold emFlowStripped emRequestFlow
  rw [hm, hf, ho]
  cases hv : validateMethod ["GET", "PUT"] r2.method with
  | error e => rfl
  | ok m =>
      simp only [Bind.bind, Except.bind]
      by_cases hg : m = "GET"
      · rw [if_pos hg, if_pos hg]
        have hstrip := strip_getExperimentMetrics r1 r2
          (r2.params.bind (·.filters)) (r2.params.bind (·.ordering)) db
        cases hg1 : getExperimentMetrics r1 (r2.params.bind (·.filters))
            (r2.params.bind (·.ordering)) db with
        | ok a1 =>
            cases hg2 : getExperimentMetrics r2 (r2.params.bind (·.filters))
                (r2.params.bind (·.ordering)) db with
            | ok a2 =>
                rw [hg1, hg2] at hstrip
                simp only [Except.map] at hstrip
                injection hstrip with hs
                simp [Except.map, hs]
            | error e2 =>
                rw [hg1, hg2] at hstrip
                simp [Except.map] at hstrip
        | error e1 =>
            cases hg2 : getExperimentMetrics r2 (r2.params.bind (·.filters))
                (r2.params.bind (·.ordering)) db with
            | ok a2 =>
                rw [hg1, hg2] at hstrip
                simp [Except.map] at hstrip
            | error e2 =>
                rw [hg1, hg2] at hstrip
                simp only [Except.map] at hstrip
                injection hstrip with hs
                simp [Except.map, emFailedRequest, stripEnvelope, hs]
      · rw [if_neg hg, if_neg hg]
        have hput := putExptMetricsData_body_only r1 r2 db hb
        rw [hput]
        cases putExptMetricsData r2 db with
        | mk db2 ex2 =>
            cases ex2 with
            | ok resp => rfl
            | error e => rfl

/-- C6 (amended): a positive integer `params.record_limit` caps the rows
returned by the experiment query (`get_experiments`) and by a metric-type
GET request, but the experiment-metric GET handler ignores `record_limit`
entirely: its request-stripped outcome is identical for any two
`record_limit` values, and it can return more rows than the limit (see
`expt_metrics_get_ignores_record_limit_counterexample`). -/
theorem record_limit_caps_experiment_and_metric_type_gets_only :
    (∀ (ρ : Type) (req : ρ) (flt : Option (FilterDict ExpRow))
        (ord : Option (List RawOrderItem)) (n : Int) (db : List ExpRow)
        (resp : DbActionResponse ρ (QueryDetails ExpRow)),
        expGetExperiments req flt ord (some n) db = .ok resp →
        ∀ d, resp.details = some d → d.record_count ≤ n.toNat) ∧
    (∀ (req : MtRequestModel) (p : MtParams) (n : Int) (db : List MtRow)
        (resp : DbActionResponse MtRequestModel (QueryDetails MtRow)),
        req.params = some p → p.record_limit = .int n → 0 < n →
        mtRequestGet req db = .ok resp →
        ∀ d, resp.details = some d → d.record_count ≤ n.toNat) ∧
    (∀ (req : EmRequestModel) (db : Db) (v1 v2 : PyVal),
        emFlowStripped (setRecordLimit req v1) db =
          emFlowStripped (setRecordLimit req v2) db) := by
  refine ⟨?_, ?_, ?_⟩
  · intro ρ req flt ord n db resp h d hd
    unfold expGetExperiments at h
    simp only [Bind.bind, Except.bind] at h
    cases hord : buildColumnOrdering expColumns ord with
    | error e => rw [hord] at h; exact Except.noConfusion h
    | ok o =>
        rw [hord] at h
        injection h with h
        rw [← h] at hd
        injection hd with hd
        rw [← hd]
        rw [List.length_take]
        exact min_le_left _ _
  · intro req p n db resp hp hlim hpos h d hd
    unfold mtRequestGet at h
    simp only [Bind.bind, Except.bind, hp] at h
    cases hm : validateMethod ["GET", "PUT"] req.method with
    | error e => rw [hm] at h; exact Except.noConfusion h
    | ok m =>
        rw [hm] at h
        cases hcf : mtConstructFilters p.filters with
        | error e => rw [hcf] at h; exact Except.noConfusion h
        | ok cf =>
            rw [hcf] at h
            rw [hlim] at h
            have hnorm : mtNormalizeRecordLimit (.int n) = some n := by
              simp [mtNormalizeRecordLimit, not_le.mpr hpos]
            rw [hnorm] at h
            unfold mtGetMetricTypes at h
            simp only [Bind.bind, Except.bind] at h
            cases hord : buildColumnOrdering mtColumns p.ordering with
            | error e => rw [hord] at h; exact Except.noConfusion h
            | ok o =>
                rw [hord] at h
                injection h with h
                rw [← h] at hd
                injection hd with hd
                rw [← hd]
                simp only [gt_iff_lt, if_pos hpos, List.length_take]
                exact min_le_left _ _
  · intro req db v1 v2
    apply emFlowStripped_congr
    · rfl
    · simp only [setRecordLimit]
      cases req.params <;> rfl
    · simp only [setRecordLimit]
      cases req.params <;> rfl
    · rfl

/-- Witness for `record_limit_caps_experiment_and_metric_type_gets_only`:
the experiment query capped at 1 over the empty table, a metric-type GET
capped at 1 over a two-row table, and the expt_metrics outcome equality at
two different record limits. -/
theorem record_limit_caps_experiment_and_metric_type_gets_only_witness :
    (0 : Nat) ≤ (1 : Int).toNat ∧ (1 : Nat) ≤ (1 : Int).toNat ∧
    emFlowStripped (setRecordLimit emGetReqLimited (.int 1)) dbFull =
      emFlowStripped (setRecordLimit emGetReqLimited (.int 99)) dbFull := by
  refine ⟨?_, ?_, ?_⟩
  · exact record_limit_caps_experiment_and_metric_type_gets_only.1 Unit ()
      none none 1 [] _ rfl _ rfl
  · exact record_limit_caps_experiment_and_metric_type_gets_only.2.1
      (MtRequestModel.mk (some "GET")
        (some (MtParams.mk (some mtNoFilters) none (.int 1))))
      (MtParams.mk (some mtNoFilters) none (.int 1))
      1 [mtRowA, MtRow.mk 2 "m2" "temperature" "K" "rmsd" "desc" 0 none]
      _ rfl rfl (by decide) rfl _ rfl
  · exact record_limit_caps_experiment_and_metric_type_gets_only.2.2
      emGetReqLimited dbFull (.int 1) (.int 99)
